import Mathlib

/-!
Shallow embedding of the evaluation / what-if engine of the
recruit-reveal backend (src/recruit-reveal-backend/src/routes/predict.js,
src/recruit-reveal-backend/server.js and the unnamed Express server file).

JavaScript objects are modelled as association lists in property-insertion
order; JavaScript numbers are modelled as rationals, with `Option ℚ` standing
for a number that may be non-finite (`none` plays the role of NaN/Infinity,
exactly the values rejected by `isFinite`).
-/

namespace RecruitReveal

/-- A JSON/JavaScript value as it appears in the records this backend
manipulates: a finite number, a string, a boolean, or null. -/
inductive JVal where
  | num (q : ℚ)
  | str (s : String)
  | boolean (b : Bool)
  | null
deriving DecidableEq, Repr

/-- A JavaScript object: keys with values, kept in property-insertion order. -/
abbrev Record := List (String × JVal)

/-- The JavaScript `k in obj` property-existence test (true even when the
stored value is null). -/
def hasKey (r : Record) (k : String) : Bool := (r.lookup k).isSome

/-- The JavaScript update `obj[k] = v` on a copy, as performed by
a spread such as `{ ...base, [field]: mid }`: if `k` is already a property its
value is replaced in place, otherwise the property is appended at the end. -/
def setKey (r : Record) (k : String) (v : JVal) : Record :=
  if hasKey r k then r.map (fun p => if p.1 = k then (k, v) else p)
  else r ++ [(k, v)]

/-- One pass of the `for (const c of cols) if (!(c in out)) out[c] = null;`
loop inside `padToSchema`. -/
def padCols (out : Record) : List String → Record
  | [] => out
  | c :: cs => padCols (if hasKey out c then out else out ++ [(c, JVal.null)]) cs

/-- The function `padToSchema(rec, cols)` of predict.js: when `cols` is null
the record is returned unchanged; otherwise every expected column absent from
the record is added with value null. -/
def padToSchema (r : Record) (cols : Option (List String)) : Record :=
  match cols with
  | none => r
  | some cs => padCols r cs

/-! Lookup lemmas about the record operations. -/

theorem lookup_append (a b : Record) (k : String) :
    (a ++ b).lookup k = ((a.lookup k).or (b.lookup k)) := by
  induction a with
  | nil => simp [List.lookup]
  | cons p t ih =>
    cases p with
    | mk pk pv =>
      by_cases h : k = pk
      · simp [List.lookup, h, Option.or]
      · have hb : (k == pk) = false := by
          simpa using h
        simp [List.lookup, hb, ih]

theorem lookup_append_of_isSome (a b : Record) (k : String)
    (h : (a.lookup k).isSome) : (a ++ b).lookup k = a.lookup k := by
  rw [lookup_append]
  cases ha : a.lookup k with
  | none => rw [ha] at h; simp at h
  | some v => simp [Option.or]

theorem lookup_append_of_none (a b : Record) (k : String)
    (h : a.lookup k = none) : (a ++ b).lookup k = b.lookup k := by
  rw [lookup_append, h]
  simp [Option.or]

theorem padCols_lookup_isSome (cs : List String) (out : Record) (k : String)
    (h : (out.lookup k).isSome) : (padCols out cs).lookup k = out.lookup k := by
  induction cs generalizing out with
  | nil => rfl
  | cons c cs ih =>
    by_cases hc : hasKey out c
    · simp only [padCols, hc, if_pos]
      exact ih out h
    · simp only [padCols, hc, if_neg, Bool.false_eq_true, not_false_iff]
      have hpres : ((out ++ [(c, JVal.null)]).lookup k) = out.lookup k :=
        lookup_append_of_isSome out _ k h
      rw [ih (out ++ [(c, JVal.null)]) (by rw [hpres]; exact h), hpres]

theorem padCols_eq_self (cs : List String) (out : Record)
    (h : ∀ c ∈ cs, hasKey out c) : padCols out cs = out := by
  induction cs with
  | nil => rfl
  | cons c cs ih =>
    have hc : hasKey out c := h c (List.mem_cons_self c cs)
    simp only [padCols, hc, if_pos]
    exact ih (fun c' hc' => h c' (List.mem_cons_of_mem c hc'))

theorem padCols_lookup_none (cs : List String) (out : Record) (k : String)
    (h : out.lookup k = none) :
    (padCols out cs).lookup k =
      (if k ∈ cs then some JVal.null else none) := by
  induction cs generalizing out with
  | nil => simpa [padCols] using h
  | cons c cs ih =>
    by_cases hkc : k = c
    · subst hkc
      have hnc : ¬ hasKey out k := by simp [hasKey, h]
      simp only [padCols, hnc, if_neg, Bool.false_eq_true, not_false_iff]
      have hl : ((out ++ [(k, JVal.null)]).lookup k) = some JVal.null := by
        rw [lookup_append_of_none out _ k h]
        simp [List.lookup]
      rw [padCols_lookup_isSome cs _ k (by rw [hl]; rfl), hl]
      simp
    · by_cases hc : hasKey out c
      · simp only [padCols, hc, if_pos]
        rw [ih out h]
        simp [hkc]
      · simp only [padCols, hc, if_neg, Bool.false_eq_true, not_false_iff]
        have h' : ((out ++ [(c, JVal.null)]).lookup k) = none := by
          rw [lookup_append_of_none out _ k h]
          have : (k == c) = false := by simpa using hkc
          simp [List.lookup, this]
        rw [ih _ h']
        simp [hkc]

theorem overwrite_lookup_ne (t : Record) (k : String) (v : JVal) (k' : String)
    (hne : k' ≠ k) :
    (t.map (fun p => if p.1 = k then (k, v) else p)).lookup k' = t.lookup k' := by
  induction t with
  | nil => rfl
  | cons p t ih =>
    cases p with
    | mk pk pv =>
      simp only [List.map_cons]
      by_cases hpk : pk = k
      · rw [if_pos (show (pk, pv).1 = k from hpk)]
        have hb : (k' == k) = false := by simpa using hne
        have hb' : (k' == pk) = false := by simpa [hpk] using hne
        rw [List.lookup_cons, List.lookup_cons]
        simp [hb, hb', ih]
      · rw [if_neg (show ¬ (pk, pv).1 = k from hpk)]
        rw [List.lookup_cons, List.lookup_cons]
        cases hb : (k' == pk) with
        | true => rfl
        | false => simpa using ih

theorem overwrite_lookup_self (t : Record) (k : String) (v : JVal)
    (h : (t.lookup k).isSome) :
    (t.map (fun p => if p.1 = k then (k, v) else p)).lookup k = some v := by
  induction t with
  | nil => simp at h
  | cons p t ih =>
    cases p with
    | mk pk pv =>
      simp only [List.map_cons]
      by_cases hpk : pk = k
      · rw [if_pos (show (pk, pv).1 = k from hpk)]
        subst hpk
        simp
      · rw [if_neg (show ¬ (pk, pv).1 = k from hpk)]
        have hb : (k == pk) = false := by
          simpa using fun he => hpk he.symm
        rw [List.lookup_cons] at h ⊢
        rw [hb] at h ⊢
        exact ih h

theorem setKey_lookup_ne (r : Record) (k : String) (v : JVal) (k' : String)
    (hne : k' ≠ k) : (setKey r k v).lookup k' = r.lookup k' := by
  unfold setKey
  by_cases h : hasKey r k
  · rw [if_pos h]
    exact overwrite_lookup_ne r k v k' hne
  · rw [if_neg h]
    rw [lookup_append]
    have hb : (k' == k) = false := by simpa using hne
    have hs : ([(k, v)] : Record).lookup k' = none := by
      rw [List.lookup_cons, hb]
      rfl
    rw [hs]
    cases r.lookup k' <;> rfl

theorem setKey_lookup_self (r : Record) (k : String) (v : JVal) :
    (setKey r k v).lookup k = some v := by
  unfold setKey
  by_cases h : hasKey r k
  · rw [if_pos h]
    exact overwrite_lookup_self r k v h
  · rw [if_neg h]
    unfold hasKey at h
    have hn : r.lookup k = none := by
      cases hr : r.lookup k with
      | none => rfl
      | some w => rw [hr] at h; simp at h
    rw [lookup_append_of_none r _ k hn]
    simp

/-! Number coercion: a model of the JavaScript `Number(x)` conversion combined
with the `isFinite` test that guards every use of it in predict.js.
The result `none` stands for a non-finite number (NaN or an infinity). -/

/-- Digits-only parse of a character list; `none` when empty or when a
non-digit occurs. -/
def parseDigits (cs : List Char) : Option ℕ :=
  if cs.isEmpty then none
  else if cs.all Char.isDigit then
    some (cs.foldl (fun n c => 10 * n + (c.toNat - 48)) 0)
  else none

/-- Unsigned decimal literal: digits, optionally with a decimal point
(`12`, `12.5`, `12.`, `.5`). Anything else is NaN (`none`). Exponent and hex
forms, which never occur in this backend's data, are not modelled. -/
def parseUnsignedDec (s : String) : Option ℚ :=
  match s.splitOn (".") with
  | [a] => (parseDigits a.toList).map (fun n => (n : ℚ))
  | [a, b] =>
    if a.isEmpty && b.isEmpty then none
    else
      let ip : Option ℕ := if a.isEmpty then some 0 else parseDigits a.toList
      let fp : Option (ℕ × ℕ) :=
        if b.isEmpty then some (0, 0)
        else (parseDigits b.toList).map (fun n => (n, b.length))
      match ip, fp with
      | some i, some (f, l) => some ((i : ℚ) + (f : ℚ) / ((10 : ℚ) ^ l))
      | _, _ => none
  | _ => none

/-- JavaScript `Number(s)` for a string: empty/whitespace gives 0, an
Infinity literal is non-finite, otherwise a plain signed decimal literal. -/
def jsStringToNumber (s : String) : Option ℚ :=
  let t := s.trim
  if t.isEmpty then some 0
  else if t = "Infinity" || t = "+Infinity" || t = "-Infinity" then none
  else if t.startsWith ("-") then (parseUnsignedDec (t.drop 1)).map (fun q => -q)
  else if t.startsWith ("+") then parseUnsignedDec (t.drop 1)
  else parseUnsignedDec t

/-- JavaScript `Number(x)` followed by the `isFinite` test, on a property that
may be absent (`none` argument plays the role of `undefined`, which converts
to NaN); `null` converts to 0 and booleans to 0/1. -/
def jsToNumber : Option JVal → Option ℚ
  | some (JVal.num q) => some q
  | some (JVal.str s) => jsStringToNumber s
  | some (JVal.boolean b) => some (if b then 1 else 0)
  | some JVal.null => some 0
  | none => none

/-- The JavaScript idiom `+(x.toFixed(4))`: round to four decimal places,
half away from zero, modelled exactly over the rationals. -/
def round4 (q : ℚ) : ℚ :=
  if 0 ≤ q then ((⌊q * 10000 + 1 / 2⌋ : ℤ) : ℚ) / 10000
  else -(((⌊-q * 10000 + 1 / 2⌋ : ℤ) : ℚ) / 10000)

/-! The class mapping and slider configuration literals of predict.js. -/

/-- Improvement direction of a what-if candidate statistic. -/
inductive Direction where
  | higher_better
  | lower_better
deriving DecidableEq, Repr

/-- One entry of the `SLIDERS` table. -/
structure Slider where
  key : String
  label : String
  min : ℚ
  max : ℚ
  step : ℚ
  direction : Direction
deriving DecidableEq, Repr

/-- The constant `ID2DIV = {0: 'D3/NAIA', 1: 'D2', 2: 'FCS', 3: 'Power 5'}`;
any other index reads as undefined (`none`). -/
def ID2DIV (i : ℚ) : Option String :=
  if i = 0 then some ("D3/NAIA")
  else if i = 1 then some ("D2")
  else if i = 2 then some ("FCS")
  else if i = 3 then some ("Power 5")
  else none

/-- The inverse constant `DIV2ID`, built in predict.js from `ID2DIV`. -/
def DIV2ID (label : String) : Option ℕ :=
  if label = "D3/NAIA" then some 0
  else if label = "D2" then some 1
  else if label = "FCS" then some 2
  else if label = "Power 5" then some 3
  else none

/-- The per-position `SLIDERS` table of predict.js. -/
def SLIDERS (pos : String) : List Slider :=
  if pos = "QB" then
    [⟨"Forty_Yard_Dash", "40-yard (s)", 4.4, 5.4, 0.01, Direction.lower_better⟩,
     ⟨"Senior_YPG", "Senior Yds/Game", 50, 500, 5, Direction.higher_better⟩,
     ⟨"Senior_TD_Passes", "Senior TD Passes", 0, 70, 1, Direction.higher_better⟩,
     ⟨"Vertical_Jump", "Vertical (in)", 20, 45, 0.5, Direction.higher_better⟩]
  else if pos = "RB" then
    [⟨"Forty_Yard_Dash", "40-yard (s)", 4.3, 5.2, 0.01, Direction.lower_better⟩,
     ⟨"Senior_YPG", "Senior Yds/Game", 20, 350, 5, Direction.higher_better⟩,
     ⟨"Senior_TD", "Senior TD", 0, 40, 1, Direction.higher_better⟩,
     ⟨"Vertical_Jump", "Vertical (in)", 24, 44, 0.5, Direction.higher_better⟩]
  else if pos = "WR" then
    [⟨"Forty_Yard_Dash", "40-yard (s)", 4.3, 5.2, 0.01, Direction.lower_better⟩,
     ⟨"Senior_rec_yds", "Senior Rec Yards", 100, 2500, 10, Direction.higher_better⟩,
     ⟨"Senior_rec_td", "Senior Rec TD", 0, 40, 1, Direction.higher_better⟩,
     ⟨"Vertical_Jump", "Vertical (in)", 24, 44, 0.5, Direction.higher_better⟩]
  else []

/-! The classifier boundary. `invokeServing` is a network call and
`decodePrediction` turns its JSON into `{ classId, probs }`; the solver only
sees that decoded shape, so the adapter is modelled as a function from the
queried record to a decoded prediction (a deterministic black box, as in the
spec's Classifier Adapter contract). -/

/-- The decoded output of `decodePrediction`: a discrete class id (`none`
standing for null/NaN) and, when the model returns a distribution, the
probability vector. -/
structure DecodedPred where
  classId : Option ℚ
  probs : Option (List ℚ)
deriving DecidableEq, Repr

/-- The success test of `searchThreshold`:
`out.probs ? ((out.probs[targetId] ?? 0) >= threshold) : (out.classId === targetId)`.
A missing `targetId` (unknown target label) indexes as undefined, which the
`?? 0` turns into 0, and compares unequal to every class id. -/
def succeeds (out : DecodedPred) (targetId : Option ℕ) (threshold : ℚ) : Bool :=
  match out.probs with
  | some ps =>
    decide (threshold ≤ (match targetId with
      | some t => ps.getD t 0
      | none => 0))
  | none =>
    match out.classId, targetId with
    | some c, some t => decide (c = (t : ℚ))
    | _, _ => false

/-- The record queried at one probe of the binary search:
`padToSchema({ ...base, [field]: mid }, schema)`. -/
def probeRec (base : Record) (field : String) (mid : ℚ)
    (schema : Option (List String)) : Record :=
  padToSchema (setKey base field (JVal.num mid)) schema

/-- The successful probe tracked by the loop (`best = { value: mid, classId:
out.classId, probs: out.probs }`). -/
structure BestPoint where
  value : ℚ
  classId : Option ℚ
  probs : Option (List ℚ)
deriving DecidableEq, Repr

/-- The `for (let i = 0; i < 9; i++)` body of `searchThreshold`, with the
iteration count as fuel. Each step probes the rounded midpoint, decides
`goLower` (`direction === 'higher_better' ? ok : !ok`), updates `best` and one
bound in the `goLower` branch or the other bound otherwise, and stops early
when `Math.abs(hi - lo) < 1e-3`. -/
def searchLoop (classify : Record → DecodedPred) (schema : Option (List String))
    (base : Record) (field : String) (direction : Direction)
    (targetId : Option ℕ) (threshold : ℚ) :
    ℕ → ℚ → ℚ → Option BestPoint → Option BestPoint
  | 0, _, _, best => best
  | n + 1, lo, hi, best =>
    let mid := round4 ((lo + hi) / 2)
    let out := classify (probeRec base field mid schema)
    let ok := succeeds out targetId threshold
    let goLower := match direction with
      | Direction.higher_better => ok
      | Direction.lower_better => !ok
    if goLower then
      let best' := some (BestPoint.mk mid out.classId out.probs)
      let hi' := mid - (match direction with
        | Direction.higher_better => (1 : ℚ) / 10000
        | Direction.lower_better => 0)
      if |hi' - lo| < 1 / 1000 then best'
      else searchLoop classify schema base field direction targetId threshold n lo hi' best'
    else
      let lo' := mid + (match direction with
        | Direction.higher_better => (1 : ℚ) / 10000
        | Direction.lower_better => 0)
      if |hi - lo'| < 1 / 1000 then best
      else searchLoop classify schema base field direction targetId threshold n lo' hi best

/-- The what-if result object built from a successful search
(`{ field, from, to, delta, division_id, division_label, probabilities }`;
the source's `from` and `to` are spelled `fromVal` and `toVal` because both
are Lean keywords. -/
structure SearchResult where
  field : String
  fromVal : ℚ
  toVal : ℚ
  delta : ℚ
  division_id : Option ℚ
  division_label : Option String
  probabilities : Option (List ℚ)
deriving DecidableEq, Repr

/-- The helper `searchThreshold({field, min, max, direction})` of the what-if
route: bail out (`null`) when `Number(base[field])` is not finite, otherwise
run the nine-iteration binary search over `[min, max]` and package `best`.
The source also computes `clampedStart` from the slider bounds but never uses
it. -/
def searchThreshold (classify : Record → DecodedPred)
    (schema : Option (List String)) (base : Record)
    (targetId : Option ℕ) (threshold : ℚ) (s : Slider) :
    Option SearchResult :=
  match jsToNumber (base.lookup s.key) with
  | none => none
  | some startVal =>
    match searchLoop classify schema base s.key s.direction targetId threshold
        9 s.min s.max none with
    | none => none
    | some b =>
      some { field := s.key
             fromVal := startVal
             toVal := b.value
             delta := round4 (b.value - startVal)
             division_id := b.classId
             division_label := b.classId.bind ID2DIV
             probabilities := b.probs }

/-- The function `clampToSlider(value, slider)` of predict.js: a non-finite
`Number(value)` yields `slider.min`, otherwise
`Math.max(slider.min, Math.min(slider.max, num))`. -/
def clampToSlider (value : Option JVal) (slider : Slider) : ℚ :=
  match jsToNumber value with
  | none => slider.min
  | some num => max slider.min (min slider.max num)

/-! Environment configuration and schema introspection. -/

/-- The environment variables the router reads at load time: one serving URL
per position and the workspace host (`none` models an unset variable). -/
structure Env where
  qbUrl : Option String
  rbUrl : Option String
  wrUrl : Option String
  host : Option String
deriving DecidableEq, Repr

/-- The function `endpointForPos(pos)` of predict.js. -/
def endpointForPos (env : Env) (pos : String) : Option String :=
  if pos = "QB" then env.qbUrl
  else if pos = "RB" then env.rbUrl
  else if pos = "WR" then env.wrUrl
  else none

/-- The function `parseEndpointName(invUrl)`: the regex capture of
`serving-endpoints/<name>/invocations` inside the URL (modelled for the
lower-case spelling the deployment URLs use; non-matching URLs give `none`,
as does a missing URL). -/
def parseEndpointName (invUrl : Option String) : Option String :=
  match invUrl with
  | none => none
  | some u =>
    match u.splitOn ("serving-endpoints/") with
    | _ :: rest :: _ =>
      match rest.splitOn ("/") with
      | seg :: tail =>
        if seg.isEmpty then none
        else if tail.head?.any (fun t => t.startsWith ("invocations")) then some seg
        else none
      | [] => none
    | _ => none

/-- How one schema-introspection HTTP call turns out. The `SCHEMA_CACHE` is
elided: this models a cold-cache call to `fetchSchemaOnce`. -/
inductive FetchOutcome where
  | httpError
  | timeout
  | networkError
  | success (cols : Option (List String))
deriving DecidableEq, Repr

/-- The function `fetchSchemaOnce(pos)` of predict.js (cold cache): `null`
when the endpoint name or host is unconfigured (`if (!ep || !HOST) return
null`), `null` when the call fails, times out, or returns a non-ok status, and
otherwise the parsed column list (itself possibly `null`). -/
def fetchSchemaOnce (env : Env) (pos : String) (outcome : FetchOutcome) :
    Option (List String) :=
  match parseEndpointName (endpointForPos env pos), env.host with
  | none, _ => none
  | some _, none => none
  | some _, some _ =>
    match outcome with
    | FetchOutcome.httpError => none
    | FetchOutcome.timeout => none
    | FetchOutcome.networkError => none
    | FetchOutcome.success cols => cols

/-! The POST /api/predict/whatif/:pos route handler. -/

/-- One element of the `tries` array: `{ ...s, ...got }`, the slider's own
fields merged with the search result (no keys overlap, so this is a plain
pairing). -/
structure Tried where
  slider : Slider
  result : SearchResult
deriving DecidableEq, Repr

/-- The sort comparator `(a, b) => Math.abs(a.delta) - Math.abs(b.delta)`
read as a boolean ordering on tries. -/
def absDeltaLE (a b : Tried) : Bool :=
  decide (|a.result.delta| ≤ |b.result.delta|)

/-- What the what-if route responds with: an HTTP 400 error body, or the
HTTP 200 body `{ recommendation, candidates_tried }` (position, target label
and threshold are echoed from the request and carry no information). -/
inductive WhatifResponse where
  | badRequest (msg : String)
  | ok (recommendation : Option Tried) (candidates_tried : List Tried)
deriving DecidableEq, Repr

/-- The candidate filter
`(SLIDERS[pos] || []).filter(s => !candidates || candidates.includes(s.key))`. -/
def filteredSliders (pos : String) (candidates : Option (List String)) :
    List Slider :=
  (SLIDERS pos).filter (fun s =>
    match candidates with
    | none => true
    | some cs => cs.contains s.key)

/-- The loop `for (const s of sliders) { const got = await searchThreshold(s);
if (got) tries.push({ ...s, ...got }); }`. -/
def whatifTries (classify : Record → DecodedPred)
    (schema : Option (List String)) (base : Record)
    (targetId : Option ℕ) (threshold : ℚ) (sliders : List Slider) :
    List Tried :=
  sliders.filterMap (fun s =>
    (searchThreshold classify schema base targetId threshold s).map
      (fun g => Tried.mk s g))

/-- The body of the what-if route after the endpoint check: filter the
candidates, fail with HTTP 400 when none remain, otherwise run every search,
sort the successes by `Math.abs(delta)` and answer with
`recommendation = tries[0] || null` and `candidates_tried = tries`. -/
def whatifCore (classify : Record → DecodedPred)
    (schema : Option (List String)) (pos : String) (base : Record)
    (targetLabel : String) (threshold : ℚ)
    (candidates : Option (List String)) : WhatifResponse :=
  let sliders := filteredSliders pos candidates
  if sliders.isEmpty then
    WhatifResponse.badRequest ("No candidate sliders for this position.")
  else
    let tries := whatifTries classify schema base (DIV2ID targetLabel)
      threshold sliders
    let sorted := tries.mergeSort absDeltaLE
    WhatifResponse.ok sorted.head? sorted

/-- The handler of POST /api/predict/whatif/:pos: reject an unknown position
or missing serving URL with HTTP 400, fetch the schema (failures degrade to
`null`), then run `whatifCore`. -/
def whatifHandler (classify : Record → DecodedPred) (env : Env)
    (outcome : FetchOutcome) (pos : String) (base : Record)
    (targetLabel : String) (threshold : ℚ)
    (candidates : Option (List String)) : WhatifResponse :=
  match endpointForPos env pos with
  | none => WhatifResponse.badRequest ("Unknown position or missing serving URL")
  | some _ =>
    whatifCore classify (fetchSchemaOnce env pos outcome) pos base targetLabel
      threshold candidates

/-! The record-preparation prefix of POST /api/predict/:pos. -/

/-- Where the predict route goes after its input checks: on to
`invokeServing(invUrl, record)` with the prepared record, or an HTTP 400. -/
inductive PredictStep where
  | invoke (record : Record)
  | badRequest (msg : String)
deriving DecidableEq, Repr

/-- The beginning of the predict handler: position whitelist, endpoint check,
schema fetch, then `record = padToSchema(mapFrontendFields(...), schema)`.
The argument `mapped` stands for the output of `mapFrontendFields` (a pure
field-renaming/defaulting step that no claim depends on). -/
def predictPrepare (env : Env) (pos : String) (outcome : FetchOutcome)
    (mapped : Record) : PredictStep :=
  if !(["qb", "rb", "wr"].contains pos) then
    PredictStep.badRequest ("pos must be one of qb, rb, wr")
  else
    match endpointForPos env pos.toUpper with
    | none => PredictStep.badRequest ("No serving endpoint configured for position")
    | some _ =>
      PredictStep.invoke (padToSchema mapped (fetchSchemaOnce env pos.toUpper outcome))

/-! The /evaluate route of the unnamed Express server (src/unnamed/part_019). -/

/-- The per-field imputation flags attached to an evaluation response. -/
structure ImputationFlags where
  forty_yard_dash_imputed : Bool
  vertical_jump_imputed : Bool
  shuttle_imputed : Bool
  broad_jump_imputed : Bool
  bench_press_imputed : Bool
deriving DecidableEq, Repr

/-- What the Synapse pipeline call returns, as far as this route reads it;
the pipeline may itself report which combine fields it imputed. -/
structure PipelineResult where
  predicted_tier : Option String
  probability : Option ℚ
  explainability : Option Record
  imputation_flags : Option ImputationFlags
deriving DecidableEq, Repr

/-- The evaluation response body. The `result` component is the
`...result` spread; every explicit field below it overrides any same-named
key of that spread, so `imputation_flags` and `data_completeness_warning`
in the serialized response are exactly the explicit fields here. -/
structure EnhancedResult where
  result : PipelineResult
  predicted_division : Option String
  confidence_score : Option ℚ
  feature_importance : Record
  imputation_flags : ImputationFlags
  data_completeness_warning : Bool
deriving DecidableEq, Repr

/-- The `enhancedResult` object built by `app.post(['/evaluate',
'/api/evaluate'])`: the pipeline result spread, plus literal
`imputation_flags` all false and `data_completeness_warning: false`. -/
def enhancedResult (result : PipelineResult) : EnhancedResult :=
  { result := result
    predicted_division := result.predicted_tier
    confidence_score := result.probability
    feature_importance := result.explainability.getD []
    imputation_flags := ImputationFlags.mk false false false false false
    data_completeness_warning := false }

/-! Concrete fixtures used by the claim theorems and witnesses. -/

/-- A classifier adapter that reports class 0 (D3/NAIA) for every record:
no probed value ever reaches a higher target tier. -/
def constNonTarget : Record → DecodedPred := fun _ => DecodedPred.mk (some 0) none

/-- A classifier adapter that reports class 2 (FCS) for every record. -/
def constFCS : Record → DecodedPred := fun _ => DecodedPred.mk (some 2) none

/-- A classifier adapter that echoes the `speed_power_ratio` value of the
record it is shown as its class id, exposing exactly which derived-feature
value each probe carried. -/
def spyClassify : Record → DecodedPred :=
  fun r => DecodedPred.mk (jsToNumber (r.lookup ("speed_power_ratio"))) none

/-- The QB forty-yard-dash slider (a `lower_better` candidate). -/
def qbFortySlider : Slider :=
  ⟨"Forty_Yard_Dash", "40-yard (s)", 4.4, 5.4, 0.01, Direction.lower_better⟩

/-- A QB record at forty = 4.9 s. -/
def c1Base : Record := [("Forty_Yard_Dash", JVal.num 4.9)]

/-- What the search returns on `c1Base` under `constNonTarget`. -/
def c1Result : SearchResult :=
  ⟨"Forty_Yard_Dash", 49 / 10, 2201 / 500, -(249 / 500), some 0,
    some ("D3/NAIA"), none⟩

/-- A QB record already at the slider minimum forty = 4.4 s (the spec's
boundary scenario). -/
def c2Base : Record := [("Forty_Yard_Dash", JVal.num 4.4)]

/-- A base vector carrying a derived feature (`speed_power_ratio`) that
depends on the candidate field. -/
def c3Base : Record :=
  [("Forty_Yard_Dash", JVal.num 4.9), ("speed_power_ratio", JVal.num 55)]

/-- An environment with only the QB serving endpoint and the host set. -/
def envQB : Env :=
  ⟨some ("https://dbx/serving-endpoints/qb/invocations"), none, none,
    some ("dbx.example.com")⟩

/-- A QB record with only Senior_YPG present. -/
def c6Base : Record := [("Senior_YPG", JVal.num 200)]

/-- The single successful candidate of the `c6Base`/`constFCS` what-if run. -/
def c6Tried : Tried :=
  ⟨⟨"Senior_YPG", "Senior Yds/Game", 50, 500, 5, Direction.higher_better⟩,
   ⟨"Senior_YPG", 200, 508789 / 10000, -(1491211 / 10000), some 2,
     some ("FCS"), none⟩⟩

/-- A pipeline result in which every combine field was imputed. -/
def imputedAllResult : PipelineResult :=
  ⟨some ("FCS"), some (7 / 10), none,
    some (ImputationFlags.mk true true true true true)⟩

/-! Claim theorems. -/

/-- C7: schema padding is idempotent on complete records — for every record
that already contains every column of the expected schema column list,
`padToSchema` returns a record equal to its input. -/
theorem padToSchema_idempotent_on_complete (r : Record) (cols : List String)
    (h : ∀ c ∈ cols, hasKey r c) : padToSchema r (some cols) = r :=
  padCols_eq_self cols r h

/-- Witness for C7 at a concrete complete record. -/
theorem padToSchema_idempotent_on_complete_witness :
    (∀ c ∈ (["A", "B"] : List String),
      hasKey [("A", JVal.num 1), ("B", JVal.null)] c) ∧
    padToSchema [("A", JVal.num 1), ("B", JVal.null)] (some ["A", "B"]) =
      [("A", JVal.num 1), ("B", JVal.null)] :=
  ⟨by decide, padToSchema_idempotent_on_complete _ _ (by decide)⟩

/-- C8: schema padding never alters caller-supplied data — the output agrees
with the input record on every key present in the input (even null-valued
ones), no input key is removed, and every key added by padding is one of the
schema columns and maps to null. -/
theorem padToSchema_frame (r : Record) (cols : List String) (k : String) :
    ((r.lookup k).isSome → (padToSchema r (some cols)).lookup k = r.lookup k) ∧
    (r.lookup k = none →
      (padToSchema r (some cols)).lookup k =
        (if k ∈ cols then some JVal.null else none)) :=
  ⟨fun h => padCols_lookup_isSome cols r k h,
   fun h => padCols_lookup_none cols r k h⟩

/-- Witness for C8: a supplied key (with value null) survives padding
unchanged, and a missing schema column is added as null. -/
theorem padToSchema_frame_witness :
    ((([("A", JVal.null)] : Record).lookup ("A")).isSome = true ∧
      (padToSchema [("A", JVal.null)] (some ["A", "Z"])).lookup ("A") =
        ([("A", JVal.null)] : Record).lookup ("A")) ∧
    ((([("A", JVal.null)] : Record).lookup ("Z")) = none ∧
      (padToSchema [("A", JVal.null)] (some ["A", "Z"])).lookup ("Z") =
        (if ("Z" : String) ∈ (["A", "Z"] : List String) then some JVal.null
         else none)) :=
  ⟨⟨by decide, (padToSchema_frame [("A", JVal.null)] ["A", "Z"] ("A")).1 (by decide)⟩,
   ⟨by decide, (padToSchema_frame [("A", JVal.null)] ["A", "Z"] ("Z")).2 (by decide)⟩⟩

/-- C10: `clampToSlider` is total and range-safe — whenever the slider's
bounds are ordered, the result lies in `[slider.min, slider.max]`, and every
non-finite or non-numeric input yields `slider.min`. -/
theorem clampToSlider_total_range_safe (v : Option JVal) (s : Slider)
    (h : s.min ≤ s.max) :
    s.min ≤ clampToSlider v s ∧ clampToSlider v s ≤ s.max ∧
    (jsToNumber v = none → clampToSlider v s = s.min) := by
  unfold clampToSlider
  cases hv : jsToNumber v with
  | none => exact ⟨le_refl _, h, fun _ => rfl⟩
  | some num =>
    exact ⟨le_max_left _ _, max_le h (min_le_left _ _),
      fun hc => Option.noConfusion hc⟩

/-- Witness for C10 at a concrete slider and a non-numeric input. -/
theorem clampToSlider_total_range_safe_witness :
    qbFortySlider.min ≤ qbFortySlider.max ∧
    (qbFortySlider.min ≤ clampToSlider (some (JVal.str ("abc"))) qbFortySlider ∧
      clampToSlider (some (JVal.str ("abc"))) qbFortySlider ≤ qbFortySlider.max ∧
      (jsToNumber (some (JVal.str ("abc"))) = none →
        clampToSlider (some (JVal.str ("abc"))) qbFortySlider = qbFortySlider.min)) :=
  ⟨by with_unfolding_all decide,
   clampToSlider_total_range_safe (some (JVal.str ("abc"))) qbFortySlider
     (by with_unfolding_all decide)⟩

/-- C5 (code bug): the /evaluate route hard-codes its per-field imputation
flags and completeness boolean — even for a pipeline result in which every
combine field was imputed, the response reports every flag false and
`data_completeness_warning = false`, so imputed fields are never surfaced. -/
theorem evaluate_flags_unconditionally_false :
    (enhancedResult imputedAllResult).imputation_flags =
      ImputationFlags.mk false false false false false ∧
    (enhancedResult imputedAllResult).data_completeness_warning = false ∧
    imputedAllResult.imputation_flags =
      some (ImputationFlags.mk true true true true true) :=
  ⟨rfl, rfl, rfl⟩

/-- C3 counterexample: probing the forty-yard-dash candidate at midpoint 4.65
leaves the dependent derived feature `speed_power_ratio` exactly as it was in
the base vector (55), and a classifier that echoes the `speed_power_ratio` it
is shown confirms that every probe of the search — including the one behind
the returned result — saw the stale value 55; the queried record differs from
the base record only in the candidate field. -/
theorem whatif_probe_keeps_derived_features_stale :
    (probeRec c3Base ("Forty_Yard_Dash") (4.65) none).lookup ("speed_power_ratio") =
      c3Base.lookup ("speed_power_ratio") ∧
    (probeRec c3Base ("Forty_Yard_Dash") (4.65) none).lookup ("Forty_Yard_Dash") =
      some (JVal.num (4.65)) ∧
    (searchThreshold spyClassify none c3Base (some 3) (1 / 2) qbFortySlider).map
      SearchResult.division_id = some (some 55) := by
  refine ⟨by with_unfolding_all decide, by with_unfolding_all decide,
    by with_unfolding_all decide⟩

/-- C3 amended: at every probe the record sent to the classifier is the base
feature vector with only the candidate field replaced by the midpoint (then
schema-padded); every other key of the base record — dependent derived
features included — is carried over unchanged, with no recomputation. -/
theorem probe_only_changes_candidate_field (base : Record) (field : String)
    (mid : ℚ) (schema : Option (List String)) (k : String)
    (hne : k ≠ field) (hk : (base.lookup k).isSome) :
    (probeRec base field mid schema).lookup k = base.lookup k := by
  unfold probeRec
  have hset : (setKey base field (JVal.num mid)).lookup k = base.lookup k :=
    setKey_lookup_ne base field (JVal.num mid) k hne
  cases schema with
  | none => exact hset
  | some cs =>
    have : (padCols (setKey base field (JVal.num mid)) cs).lookup k =
        (setKey base field (JVal.num mid)).lookup k :=
      padCols_lookup_isSome cs _ k (by rw [hset]; exact hk)
    rw [padToSchema]
    rw [this, hset]

/-- Witness for the amended C3 at a concrete probe. -/
theorem probe_only_changes_candidate_field_witness :
    (("speed_power_ratio" : String) ≠ "Forty_Yard_Dash" ∧
      ((c3Base.lookup ("speed_power_ratio")).isSome = true)) ∧
    (probeRec c3Base ("Forty_Yard_Dash") (4.65) (some ["Extra"])).lookup
      ("speed_power_ratio") = c3Base.lookup ("speed_power_ratio") :=
  ⟨⟨by decide, by with_unfolding_all decide⟩,
   probe_only_changes_candidate_field c3Base ("Forty_Yard_Dash") (4.65)
     (some ["Extra"]) ("speed_power_ratio") (by decide)
     (by with_unfolding_all decide)⟩

/-- C1 (code bug): for a `lower_better` candidate the solver records `best`
in the `goLower = !ok` branch — at probes that FAIL the success test — so the
recommendation it returns does not satisfy the success condition on replay:
under a classifier that reports the non-target tier everywhere, the search on
forty = 4.9 s still returns `to = 4.402`, and re-querying the classifier at
that value fails the success condition. -/
theorem whatif_lower_better_replay_fails :
    searchThreshold constNonTarget none c1Base (some 3) (1 / 2) qbFortySlider =
      some c1Result ∧
    succeeds
      (constNonTarget (probeRec c1Base ("Forty_Yard_Dash") c1Result.toVal none))
      (some 3) (1 / 2) = false := by
  set_option maxRecDepth 4000 in
  exact ⟨by with_unfolding_all decide, by with_unfolding_all decide⟩

/-- C2 (code bug): with a classifier that never reports the target tier, a
`lower_better` candidate already at its slider minimum (forty = 4.4 s, the
spec's boundary scenario) should yield no result, but `searchThreshold`
still returns one — `best` is assigned precisely at failing probes. -/
theorem whatif_lower_better_all_fail_still_some :
    (∀ r : Record, succeeds (constNonTarget r) (some 3) (1 / 2) = false) ∧
    (searchThreshold constNonTarget none c2Base (some 3) (1 / 2)
      qbFortySlider).isSome = true := by
  constructor
  · intro r
    with_unfolding_all rfl
  · set_option maxRecDepth 4000 in
    with_unfolding_all decide

/-- C4 counterexample: invoked with zero applicable candidates, the what-if
route answers HTTP 400 (`No candidate sliders for this position.`), not a
success response with a null recommendation. -/
theorem whatif_zero_candidates_http_400 :
    whatifHandler constNonTarget envQB (FetchOutcome.success none) ("QB") []
      ("FCS") (1 / 2) (some ["Nonexistent_Stat"]) =
      WhatifResponse.badRequest ("No candidate sliders for this position.") := by
  with_unfolding_all decide

/-- C4 amended: when at least one applicable candidate exists but every
candidate's search returns no result, the what-if route answers with a
success response carrying a null recommendation and an empty
`candidates_tried` — not an HTTP error; with zero applicable candidates,
however, it answers HTTP 400. -/
theorem whatif_all_fail_returns_ok_null
    (classify : Record → DecodedPred) (env : Env) (outcome : FetchOutcome)
    (pos : String) (base : Record) (targetLabel : String) (threshold : ℚ)
    (candidates : Option (List String)) (u : String)
    (hep : endpointForPos env pos = some u)
    (hne : filteredSliders pos candidates ≠ [])
    (hfail : ∀ s ∈ filteredSliders pos candidates,
      searchThreshold classify (fetchSchemaOnce env pos outcome) base
        (DIV2ID targetLabel) threshold s = none) :
    whatifHandler classify env outcome pos base targetLabel threshold
      candidates = WhatifResponse.ok none [] := by
  have hE : (filteredSliders pos candidates).isEmpty = false := by
    cases hF : filteredSliders pos candidates with
    | nil => exact absurd hF hne
    | cons a l => rfl
  have ht : whatifTries classify (fetchSchemaOnce env pos outcome) base
      (DIV2ID targetLabel) threshold (filteredSliders pos candidates) = [] := by
    unfold whatifTries
    rw [List.filterMap_eq_nil_iff]
    intro s hs
    rw [hfail s hs]
    rfl
  simp only [whatifHandler, hep, whatifCore, hE, Bool.false_eq_true,
    if_false, ht, List.mergeSort_nil, List.head?_nil]

/-- Witness for the amended C4: QB with an empty base record — every
candidate lacks a numeric anchor, so all searches fail and the route answers
`ok` with a null recommendation. -/
theorem whatif_all_fail_returns_ok_null_witness :
    endpointForPos envQB ("QB") =
      some ("https://dbx/serving-endpoints/qb/invocations") ∧
    filteredSliders ("QB") none ≠ [] ∧
    (∀ s ∈ filteredSliders ("QB") none,
      searchThreshold constNonTarget
        (fetchSchemaOnce envQB ("QB") (FetchOutcome.success none)) []
        (DIV2ID ("FCS")) (1 / 2) s = none) ∧
    whatifHandler constNonTarget envQB (FetchOutcome.success none) ("QB") []
      ("FCS") (1 / 2) none = WhatifResponse.ok none [] :=
  ⟨rfl, by decide, by with_unfolding_all decide,
   whatif_all_fail_returns_ok_null constNonTarget envQB
     (FetchOutcome.success none) ("QB") [] ("FCS") (1 / 2) none _ rfl
     (by decide) (by with_unfolding_all decide)⟩

/-- If a list is pairwise ordered and starts with `a`, then every member is
`a` itself or sits above `a` in the order. -/
theorem pairwise_head_min {α : Type} {R : α → α → Prop} {l : List α} {a b : α}
    (hp : l.Pairwise R) (ha : l.head? = some a) (hb : b ∈ l) : b = a ∨ R a b := by
  cases l with
  | nil => cases ha
  | cons x xs =>
    injection ha with ha
    subst ha
    rcases List.mem_cons.mp hb with h | h
    · exact Or.inl h
    · exact Or.inr ((List.pairwise_cons.mp hp).1 b h)

/-- C6: whenever the what-if route answers with a recommendation, that
recommendation is one of the reported candidates, its `abs(delta)` is less
than or equal to that of every reported candidate, and every candidate whose
search succeeded is reported in `candidates_tried`. -/
theorem whatif_recommendation_minimal_delta
    (classify : Record → DecodedPred) (env : Env) (outcome : FetchOutcome)
    (pos : String) (base : Record) (targetLabel : String) (threshold : ℚ)
    (candidates : Option (List String)) (rec : Option Tried)
    (tries : List Tried) (r : Tried)
    (h : whatifHandler classify env outcome pos base targetLabel threshold
      candidates = WhatifResponse.ok rec tries)
    (hr : rec = some r) :
    r ∈ tries ∧ (∀ t ∈ tries, |r.result.delta| ≤ |t.result.delta|) ∧
    (∀ s ∈ filteredSliders pos candidates, ∀ g,
      searchThreshold classify (fetchSchemaOnce env pos outcome) base
        (DIV2ID targetLabel) threshold s = some g → Tried.mk s g ∈ tries) := by
  subst hr
  unfold whatifHandler at h
  cases hep : endpointForPos env pos with
  | none =>
    rw [hep] at h
    exact absurd h (by simp)
  | some u =>
    rw [hep] at h
    simp only [whatifCore] at h
    by_cases hE : (filteredSliders pos candidates).isEmpty = true
    · rw [if_pos hE] at h
      exact absurd h (by simp)
    · rw [if_neg hE] at h
      rw [WhatifResponse.ok.injEq] at h
      obtain ⟨h1, h2⟩ := h
      subst h2
      have htrans : ∀ a b c : Tried, absDeltaLE a b → absDeltaLE b c →
          absDeltaLE a c := by
        intro a b c hab hbc
        unfold absDeltaLE at hab hbc ⊢
        exact decide_eq_true
          (le_trans (of_decide_eq_true hab) (of_decide_eq_true hbc))
      have htotal : ∀ a b : Tried, absDeltaLE a b || absDeltaLE b a := by
        intro a b
        unfold absDeltaLE
        rcases le_total (|a.result.delta|) (|b.result.delta|) with hle | hle
        · rw [decide_eq_true hle]
          rfl
        · rw [decide_eq_true hle]
          simp
      have hp := @List.sorted_mergeSort Tried absDeltaLE htrans htotal
        (whatifTries classify (fetchSchemaOnce env pos outcome) base
          (DIV2ID targetLabel) threshold (filteredSliders pos candidates))
      refine ⟨List.mem_of_mem_head? (by rw [h1]; rfl), ?_, ?_⟩
      · intro t ht
        rcases pairwise_head_min hp h1 ht with he | hR
        · rw [he]
        · exact of_decide_eq_true hR
      · intro s hs g hg
        rw [List.mem_mergeSort]
        unfold whatifTries
        exact List.mem_filterMap.mpr ⟨s, hs, by rw [hg]; rfl⟩

/-- Witness for C6: one successful candidate (Senior_YPG, classifier fixed at
FCS) — the handler recommends it and reports it. -/
theorem whatif_recommendation_minimal_delta_witness :
    c6Tried ∈ [c6Tried] ∧
    (∀ t ∈ [c6Tried], |c6Tried.result.delta| ≤ |t.result.delta|) ∧
    (∀ s ∈ filteredSliders ("QB") (some ["Senior_YPG"]), ∀ g,
      searchThreshold constFCS
        (fetchSchemaOnce envQB ("QB") (FetchOutcome.success none)) c6Base
        (DIV2ID ("FCS")) (1 / 2) s = some g → Tried.mk s g ∈ [c6Tried]) := by
  have h : whatifHandler constFCS envQB (FetchOutcome.success none) ("QB")
      c6Base ("FCS") (1 / 2) (some ["Senior_YPG"]) =
      WhatifResponse.ok (some c6Tried) [c6Tried] := by
    have e1 : whatifHandler constFCS envQB (FetchOutcome.success none) ("QB")
        c6Base ("FCS") (1 / 2) (some ["Senior_YPG"]) =
        WhatifResponse.ok (([c6Tried].mergeSort absDeltaLE).head?)
          ([c6Tried].mergeSort absDeltaLE) := by
      with_unfolding_all rfl
    rw [e1, List.mergeSort_singleton]
    rfl
  exact whatif_recommendation_minimal_delta constFCS envQB
    (FetchOutcome.success none) ("QB") c6Base ("FCS") (1 / 2)
    (some ["Senior_YPG"]) (some c6Tried) [c6Tried] c6Tried h rfl

/-- C9: schema-introspection failure degrades to no padding rather than an
error — an unconfigured endpoint name or host, a failed HTTP call, or a
timeout makes `fetchSchemaOnce` yield `null`; `padToSchema(record, null)`
returns the record unchanged; the what-if handler then runs with a null
schema (so every probe is unpadded), and the predict handler proceeds to
invoke serving with the unpadded record. -/
theorem schema_failure_no_padding
    (env : Env) (pos : String) (outcome : FetchOutcome)
    (h : parseEndpointName (endpointForPos env pos) = none ∨ env.host = none ∨
      outcome = FetchOutcome.httpError ∨ outcome = FetchOutcome.timeout ∨
      outcome = FetchOutcome.networkError) :
    fetchSchemaOnce env pos outcome = none ∧
    (∀ r : Record, padToSchema r (fetchSchemaOnce env pos outcome) = r) ∧
    (∀ classify base targetLabel threshold candidates,
      whatifHandler classify env outcome pos base targetLabel threshold
        candidates =
      (match endpointForPos env pos with
        | none =>
          WhatifResponse.badRequest ("Unknown position or missing serving URL")
        | some _ =>
          whatifCore classify none pos base targetLabel threshold candidates)) ∧
    (∀ mapped : Record, fetchSchemaOnce env pos.toUpper outcome = none →
      predictPrepare env pos outcome mapped =
        (if !(["qb", "rb", "wr"].contains pos) then
          PredictStep.badRequest ("pos must be one of qb, rb, wr")
        else
          match endpointForPos env pos.toUpper with
          | none =>
            PredictStep.badRequest ("No serving endpoint configured for position")
          | some _ => PredictStep.invoke mapped)) := by
  have h1 : fetchSchemaOnce env pos outcome = none := by
    unfold fetchSchemaOnce
    rcases h with h | h | h | h | h
    · rw [h]
    · rw [h]
      cases parseEndpointName (endpointForPos env pos) <;> rfl
    all_goals
      subst h
      cases parseEndpointName (endpointForPos env pos) <;>
        cases env.host <;> rfl
  refine ⟨h1, fun r => by rw [h1]; rfl, ?_, ?_⟩
  · intro classify base targetLabel threshold candidates
    unfold whatifHandler
    cases hep : endpointForPos env pos with
    | none => rfl
    | some u => rw [h1]
  · intro mapped hf
    unfold predictPrepare
    cases hc : (["qb", "rb", "wr"].contains pos) with
    | false => rfl
    | true =>
      cases hep : endpointForPos env pos.toUpper with
      | none => rfl
      | some u =>
        rw [hf]
        rfl

/-- Witness for C9: QB with no QB serving URL configured — the schema comes
back null and padding is the identity on a concrete record. -/
theorem schema_failure_no_padding_witness :
    parseEndpointName
      (endpointForPos (Env.mk none none none (some ("h"))) ("QB")) = none ∧
    fetchSchemaOnce (Env.mk none none none (some ("h"))) ("QB")
      (FetchOutcome.success (some ["C"])) = none ∧
    padToSchema [("X", JVal.num 1)]
      (fetchSchemaOnce (Env.mk none none none (some ("h"))) ("QB")
        (FetchOutcome.success (some ["C"]))) = [("X", JVal.num 1)] :=
  ⟨rfl,
   (schema_failure_no_padding (Env.mk none none none (some ("h"))) ("QB")
     (FetchOutcome.success (some ["C"])) (Or.inl rfl)).1,
   (schema_failure_no_padding (Env.mk none none none (some ("h"))) ("QB")
     (FetchOutcome.success (some ["C"])) (Or.inl rfl)).2.1 _⟩

end RecruitReveal
